import Mathlib

/-!
DeviceNameHelperRK: shallow embedding and verification.

Shallow embedding of the `DeviceNameHelper` library (file
`src/DeviceNameHelperRK.cpp` / `src/DeviceNameHelperRK.h`): a cooperative
state machine that fetches the device name over Particle publish/subscribe,
caches it in a persisted record, and periodically re-fetches it.

Modelling conventions:
* The persisted record `DeviceNameHelperData` is embedded field-by-field;
  the C `char name[32]` buffer is modelled as the `List Char` of characters
  before the null terminator, so "name buffer holds the empty string" is
  `name = []` and the terminator fits whenever `name.length ≤ 31`.
* `millis()` returns `unsigned long` (32 bits on Particle devices); the
  idiom `millis() - stateTime` is embedded as `sub32`, subtraction
  modulo `2^32`.
* External inputs sampled during a tick (`millis()`, `Particle.connected()`,
  `Time.isValid()`, `Time.now()`) are gathered in an `Env` record passed to
  the tick function.
* Side effects (`Particle.subscribe`, `Particle.publish`, the virtual
  `save()`, and invocation of the registered `nameCallback`) are reified as
  an ordered `List Event` returned by each tick.  The `saveEvt` event
  carries the record value at the moment `save()` is called, and
  `callbackEvt` carries the string passed to the callback, so ordering
  between the in-place record update, persistence and notification is
  observable in the event list.
* The `std::function` callback itself is modelled by the boolean
  `nameCallback` ("a callback is registered"), matching the only use the
  code makes of it: `if (nameCallback) nameCallback(data->name);`.
* The `stateHandler` member-function pointer is modelled as
  `Option State`: `none` is the C++ `stateHandler = 0` idle condition.
-/

/-- Constant `DeviceNameHelper::DATA_MAGIC`, the sentinel marking an
initialized record. -/
def DATA_MAGIC : Nat := 0x7787a2f2

/-- Constant `DEVICENAMEHELPER_MAX_NAME_LEN` (31): maximum stored name
length; the buffer is one byte longer to hold the terminator. -/
def DEVICENAMEHELPER_MAX_NAME_LEN : Nat := 31

/-- Value of `sizeof(DeviceNameHelperData)`: 44 bytes
(4 magic + 1 size + 1 flags + 2 reserved + 4 long lastCheck + 32 name). -/
def DATA_SIZE : Nat := 44

/-- Constant `DeviceNameHelper::POST_CONNECT_WAIT_MS` (2000 ms). -/
def POST_CONNECT_WAIT_MS : Nat := 2000

/-- Constant `DeviceNameHelper::RESPONSE_WAIT_MS` (15000 ms). -/
def RESPONSE_WAIT_MS : Nat := 15000

/-- Constant `DeviceNameHelper::RETRY_WAIT_MS` (5 minutes). -/
def RETRY_WAIT_MS : Nat := 5 * 60 * 1000

/-- Unsigned 32-bit subtraction `a - b`, the `millis() - stateTime` idiom.
For `b ≤ a < 2^32` it equals `a - b`. -/
def sub32 (a b : Nat) : Nat :=
  (a % 4294967296 + (4294967296 - b % 4294967296)) % 4294967296

/-- The persisted record `struct DeviceNameHelperData`. -/
structure DeviceNameHelperData where
  /-- Field `uint32_t magic`. -/
  magic : Nat
  /-- Field `uint8_t size`. -/
  size : Nat
  /-- Field `uint8_t flags`. -/
  flags : Nat
  /-- Field `uint16_t reserved`. -/
  reserved : Nat
  /-- Field `long lastCheck`, seconds past the epoch from `Time.now()`. -/
  lastCheck : Int
  /-- Field `char name[DEVICENAMEHELPER_MAX_NAME_LEN + 1]`, modelled as the
  characters before the null terminator. -/
  name : List Char
deriving DecidableEq

namespace DeviceNameHelper

/-- The state-machine phase: which member function `stateHandler` points at. -/
inductive State where
  | start
  | subscribe
  | waitConnected
  | waitRequest
  | waitResponse
  | waitRetry
  | waitRecheck
deriving DecidableEq

/-- Reified side effects emitted during a tick, in order of occurrence. -/
inductive Event where
  /-- Call of `Particle.subscribe` on the device-name topic. -/
  | subscribeEvt
  /-- Call of `Particle.publish` on the device-name topic. -/
  | publishEvt
  /-- Call of the virtual `save()`, carrying the record value being saved. -/
  | saveEvt (rec : DeviceNameHelperData)
  /-- Invocation `nameCallback(name)`, carrying the argument string. -/
  | callbackEvt (name : List Char)
deriving DecidableEq

/-- Mutable member state of a `DeviceNameHelper` instance after `setup()`
has installed the record (`data` is non-null from `setup()` onwards, which
is the only point `stateHandler` becomes non-null). -/
structure Engine where
  /-- Pointee of `DeviceNameHelperData *data`, the installed record. -/
  data : DeviceNameHelperData
  /-- Member `std::chrono::seconds checkPeriod` (0 = never check again). -/
  checkPeriod : Int
  /-- Flag standing for the `nameCallback` std::function: true iff a
  callback is registered. -/
  nameCallback : Bool
  /-- Member `stateHandler` as the current phase; `none` when the code has
  `stateHandler = 0`. -/
  state : Option State
  /-- Member `unsigned long stateTime`, a `millis()` sample. -/
  stateTime : Nat
  /-- Member `bool hasSubscribed`. -/
  hasSubscribed : Bool
  /-- Member `bool gotResponse`. -/
  gotResponse : Bool
  /-- Member `bool forceCheck`. -/
  forceCheck : Bool
deriving DecidableEq

/-- Platform inputs sampled during one tick. -/
structure Env where
  /-- Value of `millis()`. -/
  millis : Nat
  /-- Value of `Particle.connected()`. -/
  connected : Bool
  /-- Value of `Time.isValid()`. -/
  timeIsValid : Bool
  /-- Value of `Time.now()`. -/
  timeNow : Int
deriving DecidableEq

/-- Handler `DeviceNameHelper::stateStart`. -/
def stateStart (e : Engine) (env : Env) : Engine × List Event :=
  if e.data.name ≠ [] then
    ({ e with state := some State.waitRecheck, stateTime := env.millis },
     if e.nameCallback then [Event.callbackEvt e.data.name] else [])
  else
    ({ e with state := some State.subscribe }, [])

/-- Handler `DeviceNameHelper::stateSubscribe`. -/
def stateSubscribe (e : Engine) : Engine × List Event :=
  if ¬ e.hasSubscribed then
    ({ e with hasSubscribed := true, state := some State.waitConnected },
      [Event.subscribeEvt])
  else
    ({ e with state := some State.waitConnected }, [])

/-- Handler `DeviceNameHelper::stateWaitConnected`. -/
def stateWaitConnected (e : Engine) (env : Env) : Engine × List Event :=
  if ¬ env.connected ∨ ¬ env.timeIsValid then
    (e, [])
  else
    ({ e with state := some State.waitRequest, stateTime := env.millis }, [])

/-- Handler `DeviceNameHelper::stateWaitRequest`. -/
def stateWaitRequest (e : Engine) (env : Env) : Engine × List Event :=
  if sub32 env.millis e.stateTime < POST_CONNECT_WAIT_MS then
    (e, [])
  else
    ({ e with gotResponse := false, state := some State.waitResponse, stateTime := env.millis },
      [Event.publishEvt])

/-- Handler `DeviceNameHelper::stateWaitResponse`. -/
def stateWaitResponse (e : Engine) (env : Env) : Engine × List Event :=
  if e.gotResponse then
    if e.data.name ≠ [] then
      ({ e with data := { e.data with lastCheck := env.timeNow }, state := some State.waitRecheck, stateTime := env.millis },
        Event.saveEvt { e.data with lastCheck := env.timeNow } ::
          (if e.nameCallback then
            [Event.callbackEvt e.data.name]
          else []))
    else
      ({ e with state := some State.waitRetry, stateTime := env.millis }, [])
  else
    if RESPONSE_WAIT_MS ≤ sub32 env.millis e.stateTime then
      ({ e with state := some State.waitRetry, stateTime := env.millis }, [])
    else
      (e, [])

/-- Handler `DeviceNameHelper::stateWaitRetry`. -/
def stateWaitRetry (e : Engine) (env : Env) : Engine × List Event :=
  if RETRY_WAIT_MS ≤ sub32 env.millis e.stateTime then
    ({ e with state := some State.waitConnected }, [])
  else
    (e, [])

/-- Handler `DeviceNameHelper::stateWaitRecheck`. -/
def stateWaitRecheck (e : Engine) (env : Env) : Engine × List Event :=
  if sub32 env.millis e.stateTime < 10000 then
    (e, [])
  else
    let e1 := { e with stateTime := env.millis }
    if e1.forceCheck then
      ({ e1 with forceCheck := false, state := some State.subscribe }, [])
    else if e1.checkPeriod = 0 then
      ({ e1 with state := none }, [])
    else if env.timeIsValid ∧ e1.data.lastCheck + e1.checkPeriod < env.timeNow then
      ({ e1 with state := some State.subscribe }, [])
    else
      (e1, [])

/-- Method `DeviceNameHelper::loop`: dispatch on the current
`stateHandler` (no-op when `stateHandler` is null). -/
def loop (e : Engine) (env : Env) : Engine × List Event :=
  match e.state with
  | none => (e, [])
  | some State.start => stateStart e env
  | some State.subscribe => stateSubscribe e
  | some State.waitConnected => stateWaitConnected e env
  | some State.waitRequest => stateWaitRequest e env
  | some State.waitResponse => stateWaitResponse e env
  | some State.waitRetry => stateWaitRetry e env
  | some State.waitRecheck => stateWaitRecheck e env

/-- Method `DeviceNameHelper::checkName` (the spec's `force_check()`
operation). -/
def checkName (e : Engine) : Engine :=
  match e.state with
  | none => { e with state := some State.subscribe }
  | some _ => { e with forceCheck := true }

/-- Method `DeviceNameHelper::subscriptionRemoved`. -/
def subscriptionRemoved (e : Engine) : Engine :=
  { e with hasSubscribed := false }

/-- Method `DeviceNameHelper::subscriptionHandler`: store the inbound
payload into the name field of `data` (truncating to
`DEVICENAMEHELPER_MAX_NAME_LEN` when it does not fit) and set
`gotResponse`. -/
def subscriptionHandler (e : Engine) (_eventName eventData : List Char) :
    Engine :=
  let stored :=
    if eventData.length < DEVICENAMEHELPER_MAX_NAME_LEN then
      eventData
    else
      eventData.take DEVICENAMEHELPER_MAX_NAME_LEN
  { e with data := { e.data with name := stored }, gotResponse := true }

/-- The record-validation half of `DeviceNameHelper::commonSetup`: on a
magic or size mismatch the whole record is zeroed and freshly stamped. -/
def commonSetupData (d : DeviceNameHelperData) : DeviceNameHelperData :=
  if d.magic ≠ DATA_MAGIC ∨ d.size ≠ DATA_SIZE then
    { magic := DATA_MAGIC, size := DATA_SIZE, flags := 0, reserved := 0, lastCheck := 0, name := [] }
  else
    d

/-- Method `DeviceNameHelper::commonSetup`: validate the record and point
`stateHandler` at `stateStart`. -/
def commonSetup (e : Engine) : Engine :=
  { e with data := commonSetupData e.data, state := some State.start }

/-- Accessor `DeviceNameHelper::hasName`, the check that `data` is
non-null and its name non-empty.  The `data` pointer, null before
`setup()`, is the `Option`. -/
def hasName (od : Option DeviceNameHelperData) : Bool :=
  match od with
  | none => false
  | some d => !d.name.isEmpty

/-- Accessor `DeviceNameHelper::getName`, returning the record's name
when `data` is non-null and the empty string otherwise (always a valid
string, never a null pointer; modelled as a total function). -/
def getName (od : Option DeviceNameHelperData) : List Char :=
  match od with
  | none => []
  | some d => d.name

/-- Accessor `DeviceNameHelper::getLastNameCheckTime`, returning the
record's lastCheck when `data` is non-null and 0 otherwise. -/
def getLastNameCheckTime (od : Option DeviceNameHelperData) : Int :=
  match od with
  | none => 0
  | some d => d.lastCheck

/-- External stimuli applied to a running engine: driver ticks, inbound
subscription events, `subscriptionRemoved()` notices and `checkName()`
calls. -/
inductive Action where
  | tickA (env : Env)
  | responseA (eventName eventData : List Char)
  | removeA
  | checkA
deriving DecidableEq

/-- One stimulus applied to the engine, with the events it emits. -/
def step (e : Engine) (a : Action) : Engine × List Event :=
  match a with
  | Action.tickA env => loop e env
  | Action.responseA en ed => (subscriptionHandler e en ed, [])
  | Action.removeA => (subscriptionRemoved e, [])
  | Action.checkA => (checkName e, [])

/-- Run a sequence of stimuli, concatenating the emitted events. -/
def run (e : Engine) : List Action → Engine × List Event
  | [] => (e, [])
  | a :: as =>
    let s := step e a
    let r := run s.1 as
    (r.1, s.2 ++ r.2)

/-- Whether an event is a `Particle.subscribe` call. -/
def isSubEvt : Event → Bool
  | Event.subscribeEvt => true
  | _ => false

/-- Number of `Particle.subscribe` calls in an event trace. -/
def countSub (evs : List Event) : Nat := (evs.filter isSubEvt).length

/-- A concrete record used to instantiate witnesses. -/
def sampleData : DeviceNameHelperData :=
  { magic := DATA_MAGIC, size := DATA_SIZE, flags := 0, reserved := 0, lastCheck := 100, name := ['a'] }

/-- A concrete engine (in WaitRecheck, recheck period 60 s, callback registered) used to instantiate witnesses. -/
def sampleEngine : Engine :=
  { data := sampleData, checkPeriod := 60, nameCallback := true, state := some State.waitRecheck, stateTime := 0, hasSubscribed := true, gotResponse := false, forceCheck := false }

/-- A concrete environment: 10 s dwell, connected, valid clock, and `Time.now()` exactly at `lastCheck + checkPeriod`. -/
def sampleEnvBoundary : Env :=
  { millis := 10000, connected := true, timeIsValid := true, timeNow := 160 }

/-- Helper: 0 when the engine believes it has subscribed, otherwise 1; an
upper bound on the subscribe calls the engine may still make. -/
def subWeight (e : Engine) : Nat := if e.hasSubscribed then 0 else 1

/-- Claim C1: in WaitResponse, when a response has been received and the
record's name is non-empty, the tick sets the record's lastCheck to the
current epoch time, invokes save() on the updated record, then invokes the
name callback (if registered) with the stored name, and transitions to
WaitRecheck. -/
theorem claim_C1 (e : Engine) (env : Env)
    (hs : e.state = some State.waitResponse)
    (hr : e.gotResponse = true)
    (hn : e.data.name ≠ []) :
    loop e env =
      ({ e with data := { e.data with lastCheck := env.timeNow }, state := some State.waitRecheck, stateTime := env.millis },
        Event.saveEvt { e.data with lastCheck := env.timeNow } ::
          (if e.nameCallback then [Event.callbackEvt e.data.name] else [])) := by
  simp [loop, hs, stateWaitResponse, hr, hn]

/-- Witness for C1 at a concrete engine and environment. -/
theorem claim_C1_witness :
    (loop { sampleEngine with state := some State.waitResponse, gotResponse := true } sampleEnvBoundary).2
      = [Event.saveEvt { sampleData with lastCheck := 160 }, Event.callbackEvt ['a']] := by
  rw [claim_C1 _ _ rfl rfl (by decide)]
  decide

/-- Claim C2: record validation in commonSetup — a magic or size mismatch
zeroes the record and stamps the current magic/size (empty name, lastCheck
0); a matching record is left unchanged. -/
theorem claim_C2 (d : DeviceNameHelperData) :
    ((d.magic ≠ DATA_MAGIC ∨ d.size ≠ DATA_SIZE) →
      commonSetupData d = { magic := DATA_MAGIC, size := DATA_SIZE, flags := 0, reserved := 0, lastCheck := 0, name := [] }) ∧
    (d.magic = DATA_MAGIC ∧ d.size = DATA_SIZE → commonSetupData d = d) := by
  constructor
  · intro h
    unfold commonSetupData
    rw [if_pos h]
  · rintro ⟨h1, h2⟩
    simp [commonSetupData, h1, h2]

/-- Witness for C2: a garbage record is normalized; a valid one is kept. -/
theorem claim_C2_witness :
    commonSetupData { magic := 0, size := 44, flags := 7, reserved := 9, lastCheck := 5, name := ['x'] }
      = { magic := DATA_MAGIC, size := DATA_SIZE, flags := 0, reserved := 0, lastCheck := 0, name := [] } ∧
    commonSetupData sampleData = sampleData :=
  ⟨(claim_C2 _).1 (Or.inl (by decide)), (claim_C2 _).2 ⟨by decide, by decide⟩⟩

/-- Claim C3: the subscription handler stores payloads longer than 31
characters as exactly their first 31 characters, stores payloads of length
at most 31 verbatim, and always leaves a stored name of length at most 31
(so it fits, null-terminated, in the 32-byte buffer). -/
theorem claim_C3 (e : Engine) (en payload : List Char) :
    (DEVICENAMEHELPER_MAX_NAME_LEN < payload.length →
      (subscriptionHandler e en payload).data.name = payload.take DEVICENAMEHELPER_MAX_NAME_LEN) ∧
    (payload.length ≤ DEVICENAMEHELPER_MAX_NAME_LEN →
      (subscriptionHandler e en payload).data.name = payload) ∧
    (subscriptionHandler e en payload).data.name.length ≤ DEVICENAMEHELPER_MAX_NAME_LEN := by
  refine ⟨?_, ?_, ?_⟩
  · intro h
    simp only [subscriptionHandler]
    rw [if_neg (by omega)]
  · intro h
    simp only [subscriptionHandler]
    rcases Nat.lt_or_ge payload.length DEVICENAMEHELPER_MAX_NAME_LEN with hlt | hge
    · rw [if_pos hlt]
    · have heq : payload.length = DEVICENAMEHELPER_MAX_NAME_LEN := Nat.le_antisymm h hge
      rw [if_neg (by omega), ← heq, List.take_length]
  · simp only [subscriptionHandler]
    split
    · omega
    · simp [List.length_take]

/-- Witness for C3: a 40-character payload is truncated to 31; a short one
is stored verbatim. -/
theorem claim_C3_witness :
    (subscriptionHandler sampleEngine [] (List.replicate 40 'z')).data.name = (List.replicate 40 'z').take 31 ∧
    (subscriptionHandler sampleEngine [] ['a', 'b']).data.name = ['a', 'b'] :=
  ⟨(claim_C3 _ _ _).1 (by decide), (claim_C3 _ _ _).2.1 (by decide)⟩

/-- Claim C10: hasName is true exactly when getName is non-empty; getName
is total (never a null pointer), returning the empty string before setup()
installs a record and the record's name afterwards; getLastNameCheckTime
is 0 before setup() and the record's lastCheck afterwards. -/
theorem claim_C10 (od : Option DeviceNameHelperData) (d : DeviceNameHelperData) :
    (hasName od = true ↔ getName od ≠ []) ∧
    getName none = [] ∧ getLastNameCheckTime none = 0 ∧
    getName (some d) = d.name ∧ getLastNameCheckTime (some d) = d.lastCheck := by
  refine ⟨?_, rfl, rfl, rfl, rfl⟩
  cases od with
  | none => simp [hasName, getName]
  | some d' => cases hd : d'.name <;> simp [hasName, getName, hd]

/-- Witness for C10 at a concrete record. -/
theorem claim_C10_witness :
    (hasName (some sampleData) = true ↔ getName (some sampleData) ≠ []) ∧
    getName (some sampleData) = sampleData.name ∧
    getLastNameCheckTime none = 0 :=
  ⟨(claim_C10 (some sampleData) sampleData).1,
   (claim_C10 (some sampleData) sampleData).2.2.2.1,
   (claim_C10 none sampleData).2.2.1⟩

/-- Claim C5: an empty-payload response in WaitResponse leads to WaitRetry
(not WaitRecheck) on the next tick, with no callback, no save, and
lastCheck untouched; and 15000 ms without a response also leads to
WaitRetry. -/
theorem claim_C5 :
    (∀ (e : Engine) (env : Env) (en : List Char), e.state = some State.waitResponse →
      loop (subscriptionHandler e en []) env
        = ({ subscriptionHandler e en [] with state := some State.waitRetry, stateTime := env.millis }, []) ∧
      (subscriptionHandler e en []).data.lastCheck = e.data.lastCheck) ∧
    (∀ (e : Engine) (env : Env), e.state = some State.waitResponse → e.gotResponse = false →
      RESPONSE_WAIT_MS ≤ sub32 env.millis e.stateTime →
      loop e env = ({ e with state := some State.waitRetry, stateTime := env.millis }, [])) := by
  constructor
  · intro e env en hs
    constructor
    · simp [subscriptionHandler, loop, hs, stateWaitResponse, DEVICENAMEHELPER_MAX_NAME_LEN]
    · simp [subscriptionHandler]
  · intro e env hs hg ht
    simp [loop, hs, stateWaitResponse, hg, ht, Nat.not_lt.mpr ht]

/-- Witness for C5: concrete empty response and concrete timeout. -/
theorem claim_C5_witness :
    (loop (subscriptionHandler { sampleEngine with state := some State.waitResponse } [] []) sampleEnvBoundary).1.state
        = some State.waitRetry ∧
    (loop { sampleEngine with state := some State.waitResponse } { sampleEnvBoundary with millis := 15000 }).1.state
        = some State.waitRetry := by
  constructor
  · rw [(claim_C5.1 { sampleEngine with state := some State.waitResponse } sampleEnvBoundary [] rfl).1]
  · rw [claim_C5.2 { sampleEngine with state := some State.waitResponse } { sampleEnvBoundary with millis := 15000 } rfl rfl (by decide)]

/-- Claim C8: in the Start state, a non-empty stored name triggers the
callback (if registered) and a direct transition to WaitRecheck with no
subscribe or publish; an empty name transitions to Subscribe with no
callback. -/
theorem claim_C8 :
    (∀ (e : Engine) (env : Env), e.state = some State.start → e.data.name ≠ [] →
      loop e env = ({ e with state := some State.waitRecheck, stateTime := env.millis },
        if e.nameCallback then [Event.callbackEvt e.data.name] else [])) ∧
    (∀ (e : Engine) (env : Env), e.state = some State.start → e.data.name = [] →
      loop e env = ({ e with state := some State.subscribe }, [])) := by
  constructor
  · intro e env hs hn
    simp [loop, hs, stateStart, hn]
  · intro e env hs hn
    simp [loop, hs, stateStart, hn]

/-- Witness for C8: concrete startup with and without a cached name. -/
theorem claim_C8_witness :
    (loop { sampleEngine with state := some State.start } sampleEnvBoundary).2 = [Event.callbackEvt ['a']] ∧
    (loop { sampleEngine with state := some State.start, data := { sampleData with name := [] } } sampleEnvBoundary).1.state
      = some State.subscribe := by
  constructor
  · rw [claim_C8.1 { sampleEngine with state := some State.start } sampleEnvBoundary rfl (by decide)]
    decide
  · rw [claim_C8.2 { sampleEngine with state := some State.start, data := { sampleData with name := [] } } sampleEnvBoundary rfl rfl]

/-- Claim C7: checkName while idle re-enters Subscribe directly; while a
cycle is in progress it only sets the force-check flag; the flag is
consumed at a WaitRecheck evaluation, where it is cleared and forces a
transition to Subscribe; no other state alters the flag. -/
theorem claim_C7 :
    (∀ e : Engine, e.state = none → checkName e = { e with state := some State.subscribe }) ∧
    (∀ (e : Engine) (s : State), e.state = some s → checkName e = { e with forceCheck := true }) ∧
    (∀ (e : Engine) (env : Env), e.state = some State.waitRecheck → e.forceCheck = true →
      ¬ sub32 env.millis e.stateTime < 10000 →
      loop e env = ({ e with stateTime := env.millis, forceCheck := false, state := some State.subscribe }, [])) ∧
    (∀ (e : Engine) (env : Env), e.state ≠ some State.waitRecheck →
      (loop e env).1.forceCheck = e.forceCheck) := by
  refine ⟨?_, ?_, ?_, ?_⟩
  · intro e hs
    simp [checkName, hs]
  · intro e s hs
    simp [checkName, hs]
  · intro e env hs hf hd
    simp [loop, hs, stateWaitRecheck, hf, hd]
  · intro e env hne
    cases hstate : e.state with
    | none => simp [loop, hstate]
    | some s =>
      cases s with
      | start =>
        simp only [loop, hstate, stateStart]
        split <;> simp
      | subscribe =>
        simp only [loop, hstate, stateSubscribe]
        split <;> simp
      | waitConnected =>
        simp only [loop, hstate, stateWaitConnected]
        split <;> simp
      | waitRequest =>
        simp only [loop, hstate, stateWaitRequest]
        split <;> simp
      | waitResponse =>
        simp only [loop, hstate, stateWaitResponse]
        split
        · split <;> simp
        · split <;> simp
      | waitRetry =>
        simp only [loop, hstate, stateWaitRetry]
        split <;> simp
      | waitRecheck => exact absurd hstate hne

/-- Witness for C7: concrete idle and mid-cycle checkName calls, a forced
WaitRecheck evaluation, and flag preservation in another state. -/
theorem claim_C7_witness :
    checkName { sampleEngine with state := none } = { sampleEngine with state := some State.subscribe } ∧
    checkName sampleEngine = { sampleEngine with forceCheck := true } ∧
    loop { sampleEngine with forceCheck := true } sampleEnvBoundary
      = ({ sampleEngine with stateTime := 10000, forceCheck := false, state := some State.subscribe }, []) ∧
    (loop { sampleEngine with state := some State.start } sampleEnvBoundary).1.forceCheck = false := by
  refine ⟨?_, ?_, ?_, ?_⟩
  · exact claim_C7.1 _ rfl
  · exact claim_C7.2.1 _ State.waitRecheck rfl
  · exact claim_C7.2.2.1 { sampleEngine with forceCheck := true } sampleEnvBoundary rfl rfl (by decide)
  · exact claim_C7.2.2.2 { sampleEngine with state := some State.start } sampleEnvBoundary (by decide)

/-- Claim C4 as stated is false at the boundary: with recheck interval
D = 60 s, lastCheck = 100, valid clock, a due WaitRecheck evaluation at
now = lastCheck + D = 160 does NOT transition to Subscribe — the code
requires the strict inequality lastCheck + D < now. -/
theorem claim_C4_counterexample :
    sampleEnvBoundary.timeNow = sampleEngine.data.lastCheck + sampleEngine.checkPeriod ∧
    0 < sampleEngine.checkPeriod ∧
    sampleEngine.state = some State.waitRecheck ∧
    sampleEngine.forceCheck = false ∧
    sampleEnvBoundary.timeIsValid = true ∧
    ¬ sub32 sampleEnvBoundary.millis sampleEngine.stateTime < 10000 ∧
    (loop sampleEngine sampleEnvBoundary).1.state ≠ some State.subscribe := by
  decide

/-- Claim C4 amended: on a due WaitRecheck evaluation with the clock valid
and no forced check, the engine transitions back to Subscribe exactly when
last_check + D < now (strict); when now ≤ last_check + D it stays in
WaitRecheck, so the transition does not fire at the boundary instant
now = last_check + D. -/
theorem claim_C4_amended :
    (∀ (e : Engine) (env : Env), e.state = some State.waitRecheck →
      ¬ sub32 env.millis e.stateTime < 10000 → e.forceCheck = false →
      e.checkPeriod ≠ 0 → env.timeIsValid = true →
      e.data.lastCheck + e.checkPeriod < env.timeNow →
      (loop e env).1.state = some State.subscribe) ∧
    (∀ (e : Engine) (env : Env), e.state = some State.waitRecheck →
      ¬ sub32 env.millis e.stateTime < 10000 → e.forceCheck = false →
      e.checkPeriod ≠ 0 → env.timeNow ≤ e.data.lastCheck + e.checkPeriod →
      (loop e env).1.state = some State.waitRecheck) := by
  constructor
  · intro e env hs hd hf hp ht hlt
    simp [loop, hs, stateWaitRecheck, hd, hf, hp, ht, hlt]
  · intro e env hs hd hf hp hle
    have hnot : ¬ (env.timeIsValid = true ∧ e.data.lastCheck + e.checkPeriod < env.timeNow) := by
      rintro ⟨-, hlt⟩
      omega
    simp [loop, hs, stateWaitRecheck, hd, hf, hp, hnot]

/-- Witness for the amended C4: the transition fires one second past the
boundary and does not fire at the boundary. -/
theorem claim_C4_witness :
    (loop sampleEngine { sampleEnvBoundary with timeNow := 161 }).1.state = some State.subscribe ∧
    (loop sampleEngine sampleEnvBoundary).1.state = some State.waitRecheck :=
  ⟨claim_C4_amended.1 sampleEngine _ rfl (by decide) rfl (by decide) rfl (by decide),
   claim_C4_amended.2 sampleEngine sampleEnvBoundary rfl (by decide) rfl (by decide) (by decide)⟩

/-- Helper: an idle engine (null stateHandler) stays idle and emits no
events under any stimuli that do not include a checkName() call. -/
theorem run_idle (as : List Action) : ∀ e : Engine, e.state = none →
    Action.checkA ∉ as → (run e as).1.state = none ∧ (run e as).2 = [] := by
  induction as with
  | nil =>
    intro e he _
    exact ⟨he, rfl⟩
  | cons a as ih =>
    intro e he hmem
    have hstep : (step e a).1.state = none ∧ (step e a).2 = [] := by
      cases a with
      | tickA env => simp [step, loop, he]
      | responseA en ed => simp [step, subscriptionHandler, he]
      | removeA => simp [step, subscriptionRemoved, he]
      | checkA => exact absurd (List.mem_cons_self _ _) hmem
    have ih' := ih (step e a).1 hstep.1 (fun h => hmem (List.mem_cons_of_mem a h))
    refine ⟨?_, ?_⟩
    · simpa [run] using ih'.1
    · simp [run, hstep.2, ih'.2]

/-- Claim C6: with recheck interval 0, after a successful fetch the engine
reaches WaitRecheck; at the next due WaitRecheck evaluation with no forced
check it clears the state handler; an idle engine's ticks are no-ops; and
no events (subscribe, publish, save, callback) occur from the idle state
under any stimuli that do not include a checkName() call. -/
theorem claim_C6 :
    (∀ (e : Engine) (env : Env), e.state = some State.waitResponse → e.gotResponse = true →
      e.data.name ≠ [] → (loop e env).1.state = some State.waitRecheck) ∧
    (∀ (e : Engine) (env : Env), e.state = some State.waitRecheck →
      ¬ sub32 env.millis e.stateTime < 10000 → e.forceCheck = false → e.checkPeriod = 0 →
      loop e env = ({ e with stateTime := env.millis, state := none }, [])) ∧
    (∀ (e : Engine) (env : Env), e.state = none → loop e env = (e, [])) ∧
    (∀ (e : Engine) (as : List Action), e.state = none → Action.checkA ∉ as →
      (run e as).1.state = none ∧ (run e as).2 = []) := by
  refine ⟨?_, ?_, ?_, ?_⟩
  · intro e env hs hr hn
    simp [loop, hs, stateWaitResponse, hr, hn]
  · intro e env hs hd hf hp
    simp [loop, hs, stateWaitRecheck, hd, hf, hp]
  · intro e env hs
    simp [loop, hs]
  · exact fun e as hs hmem => run_idle as e hs hmem

/-- Witness for C6: the concrete WaitRecheck-to-idle transition and a
concrete idle run with a tick and an inbound response. -/
theorem claim_C6_witness :
    loop { sampleEngine with checkPeriod := 0 } sampleEnvBoundary
      = ({ sampleEngine with checkPeriod := 0, stateTime := 10000, state := none }, []) ∧
    (run { sampleEngine with state := none }
        [Action.tickA sampleEnvBoundary, Action.responseA [] ['q'], Action.removeA]).2 = [] := by
  constructor
  · exact claim_C6.2.1 { sampleEngine with checkPeriod := 0 } sampleEnvBoundary rfl (by decide) rfl rfl
  · exact (claim_C6.2.2.2 { sampleEngine with state := none } _ rfl (by decide)).2

/-- Helper: any single stimulus other than subscriptionRemoved() emits at
most subWeight-many subscribe calls and never raises the weight. -/
theorem step_sub_bound (e : Engine) (a : Action) (ha : a ≠ Action.removeA) :
    countSub (step e a).2 + subWeight (step e a).1 ≤ subWeight e := by
  cases a with
  | removeA => exact absurd rfl ha
  | responseA en ed => simp [step, subscriptionHandler, countSub, subWeight]
  | checkA =>
    cases hs : e.state <;> simp [step, checkName, hs, countSub, subWeight]
  | tickA env =>
    cases hstate : e.state with
    | none => simp [step, loop, hstate, countSub, subWeight]
    | some s =>
      cases s with
      | start =>
        simp only [step, loop, hstate, stateStart]
        split <;> simp [countSub, subWeight, isSubEvt]
      | subscribe =>
        by_cases hb : e.hasSubscribed <;>
          simp [step, loop, hstate, stateSubscribe, hb, countSub, subWeight, isSubEvt]
      | waitConnected =>
        simp only [step, loop, hstate, stateWaitConnected]
        split <;> simp [countSub, subWeight, isSubEvt]
      | waitRequest =>
        simp only [step, loop, hstate, stateWaitRequest]
        split <;> simp [countSub, subWeight, isSubEvt]
      | waitResponse =>
        simp only [step, loop, hstate, stateWaitResponse]
        split
        · split <;> simp [countSub, subWeight, isSubEvt]
        · split <;> simp [countSub, subWeight, isSubEvt]
      | waitRetry =>
        simp only [step, loop, hstate, stateWaitRetry]
        split <;> simp [countSub, subWeight, isSubEvt]
      | waitRecheck =>
        simp only [step, loop, hstate, stateWaitRecheck]
        split
        · simp [countSub, subWeight, isSubEvt]
        · split
          · simp [countSub, subWeight, isSubEvt]
          · split
            · simp [countSub, subWeight, isSubEvt]
            · split <;> simp [countSub, subWeight, isSubEvt]

/-- Helper: over any stimulus sequence with no subscriptionRemoved(), the
number of subscribe calls plus the remaining weight never exceeds the
starting weight. -/
theorem run_sub_bound (as : List Action) : ∀ e : Engine,
    (∀ a ∈ as, a ≠ Action.removeA) →
    countSub (run e as).2 + subWeight (run e as).1 ≤ subWeight e := by
  induction as with
  | nil =>
    intro e _
    simp [run, countSub]
  | cons a as ih =>
    intro e h
    have h1 := step_sub_bound e a (h a (List.mem_cons_self a as))
    have h2 := ih (step e a).1 (fun b hb => h b (List.mem_cons_of_mem a hb))
    have hsplit : countSub ((step e a).2 ++ (run (step e a).1 as).2)
        = countSub (step e a).2 + countSub (run (step e a).1 as).2 := by
      simp [countSub, List.filter_append]
    simp only [run]
    rw [hsplit]
    omega

/-- Claim C9: starting unsubscribed (as after setup) or immediately after a
subscriptionRemoved() notice, any stimulus sequence free of further
subscriptionRemoved() notices produces at most one Particle.subscribe call,
however often the Subscribe state is entered; entering Subscribe with the
flag already set performs no subscribe call; subscriptionRemoved() clears
the flag. -/
theorem claim_C9 :
    (∀ (e : Engine) (as : List Action), (∀ a ∈ as, a ≠ Action.removeA) →
      e.hasSubscribed = false → countSub (run e as).2 ≤ 1) ∧
    (∀ (e : Engine) (as : List Action), (∀ a ∈ as, a ≠ Action.removeA) →
      countSub (run (subscriptionRemoved e) as).2 ≤ 1) ∧
    (∀ (e : Engine) (env : Env), e.hasSubscribed = true → e.state = some State.subscribe →
      loop e env = ({ e with state := some State.waitConnected }, [])) ∧
    (∀ e : Engine, (subscriptionRemoved e).hasSubscribed = false) := by
  refine ⟨?_, ?_, ?_, ?_⟩
  · intro e as h hb
    have hrun := run_sub_bound as e h
    have hw : subWeight e = 1 := by simp [subWeight, hb]
    omega
  · intro e as h
    have hrun := run_sub_bound as (subscriptionRemoved e) h
    have hw : subWeight (subscriptionRemoved e) = 1 := rfl
    omega
  · intro e env hb hs
    simp [loop, hs, stateSubscribe, hb]
  · intro e
    rfl

/-- Witness for C9: a concrete run that enters Subscribe twice yet
subscribes once, and a concrete idempotent Subscribe entry. -/
theorem claim_C9_witness :
    countSub (run { sampleEngine with hasSubscribed := false, state := some State.subscribe }
      [Action.tickA sampleEnvBoundary, Action.checkA, Action.tickA sampleEnvBoundary]).2 ≤ 1 ∧
    loop { sampleEngine with state := some State.subscribe } sampleEnvBoundary
      = ({ sampleEngine with state := some State.waitConnected }, []) := by
  constructor
  · exact claim_C9.1 _ _ (by decide) rfl
  · exact claim_C9.2.2.1 { sampleEngine with state := some State.subscribe } sampleEnvBoundary rfl rfl

end DeviceNameHelper
